import Mathlib

/-
Verification of the log-scan status classifier in
toolkit/scripts/process_check_logs.py and of the result-reporting exit logic in
toolkit/scripts/run_ptests.py, as a shallow embedding in Lean 4.

Lines of a log file are modelled as `List Char`.  Python exceptions that the
scripts can raise or catch are modelled by `PyResult`: the classifier's
`try/except ValueError` and the uncaught `IndexError` from
`line.split(" ")[0].split("=")[1]` are represented explicitly.  Timestamps are
kept abstract: the scan is polymorphic in a time type `T` and in a parse
function `dparse : List Char → PyResult T` modelling
`dateutil.parser.parse(...).timestamp()`; a concrete instantiation `isoEpoch`
(epoch seconds as `Int`, restricted to one ISO-8601 shape) is provided for
evaluating concrete inputs.
-/

namespace ProcessCheckLogs

/-- Kinds of Python exception the embedded code distinguishes: `valueError`
is the class the classifier catches (dateutil's `ParserError` is a
`ValueError`); `indexError` is raised by `split("=")[1]` when the token
contains no `=`; `otherError` stands for any other uncaught exception. -/
inductive PyExn where
  | valueError
  | indexError
  | otherError
deriving DecidableEq, Repr

/-- Result of running a piece of Python code: a value, or an uncaught
exception. -/
inductive PyResult (α : Type) where
  | ok : α → PyResult α
  | exn : PyExn → PyResult α
deriving DecidableEq, Repr

/-- Whether `pat` is a leading segment of `s` (character-wise equality). -/
def listStartsWith (pat s : List Char) : Bool :=
  match pat, s with
  | [], _ => true
  | _ :: _, [] => false
  | p :: ps, c :: cs => p == c && listStartsWith ps cs

/-- Whether `pat` occurs contiguously anywhere in `s`; models `re.search` for
a pattern consisting only of literal characters. -/
def containsSub (pat s : List Char) : Bool :=
  match s with
  | [] => listStartsWith pat []
  | _ :: cs => listStartsWith pat s || containsSub pat cs

/-- Models Python `line.strip("\n")`: removes leading and trailing newline
characters. -/
def pyStripNL (l : List Char) : List Char :=
  ((l.dropWhile (fun c => c == '\n')).reverse.dropWhile (fun c => c == '\n')).reverse

/-- Literal content of PACKAGE_TEST_IGNORE_REGEX (`msg="\+ echo`, where `\+`
matches the literal plus sign). -/
def ignoreLit : List Char := ("msg=\"+ echo").data

/-- Literal content of PACKAGE_TEST_START_REGEX. -/
def startLit : List Char := ("msg=\"====== CHECK START").data

/-- Literal content of PACKAGE_TEST_SKIP_REGEX. -/
def skipLit : List Char := ("msg=\"====== SKIPPING CHECK").data

/-- Literal head of PACKAGE_TEST_END_REGEX, the part before `.*`. -/
def doneLit : List Char := ("msg=\"====== CHECK DONE ").data

/-- Literal middle of PACKAGE_TEST_END_REGEX, the part between `.*` and the
capture group `(\d+)` (the escaped dot, then ` EXIT STATUS `). -/
def exitLit : List Char := (". EXIT STATUS ").data

/-- Attempts to match `\. EXIT STATUS (\d+)` at the head of `s`; returns the
greedily captured digit run. -/
def matchExitAt (s : List Char) : Option (List Char) :=
  if listStartsWith exitLit s then
    let d := (s.drop exitLit.length).takeWhile Char.isDigit
    if d.isEmpty then none else some d
  else none

/-- Backtracking for the greedy `.*` of PACKAGE_TEST_END_REGEX: among the
positions of `s` reachable without crossing a newline (`.` does not match
`\n`), the latest one at which `\. EXIT STATUS (\d+)` matches wins, and its
capture is returned. -/
def greedyExit : List Char → Option (List Char)
  | [] => none
  | c :: cs =>
    match (if c == '\n' then none else greedyExit cs) with
    | some d => some d
    | none => matchExitAt (c :: cs)

/-- Models `PACKAGE_TEST_END_REGEX.search(line)` together with
`.groups()[PACKAGE_TEST_STATUS_INDEX]`: the leftmost occurrence of the literal
head from which the rest of the pattern matches, with the greedily captured
exit-status digits; `none` when the pattern does not match. -/
def endCapture : List Char → Option (List Char)
  | [] => none
  | c :: cs =>
    match (if listStartsWith doneLit (c :: cs)
           then greedyExit ((c :: cs).drop doneLit.length)
           else none) with
    | some d => some d
    | none => endCapture cs

/-- Models `token.split("=")[1]`: the segment strictly between the first and
second `=` of `token` (up to the end when there is no second `=`); `none`
models the `IndexError` raised when `token` contains no `=` at all. -/
def splitSeg1 (token : List Char) : Option (List Char) :=
  match token.dropWhile (fun c => c != '=') with
  | [] => none
  | _ :: rest => some (rest.takeWhile (fun c => c != '='))

/-- Models `PackageTestAnalyzer._get_timestamp`: isolate the token before the
first space, take the piece after its first `=`, drop every double quote, and
hand the result to the timestamp parser.  A `ValueError` from the parser is
caught and yields `none` (no timestamp); a missing `=` raises an uncaught
`IndexError`; any other parser exception propagates. -/
def pyGetTimestamp {T : Type} (dparse : List Char → PyResult T) (line : List Char) :
    PyResult (Option T) :=
  match splitSeg1 (line.takeWhile (fun c => c != ' ')) with
  | none => .exn .indexError
  | some seg =>
    match dparse (seg.filter (fun c => c != '"')) with
    | .ok t => .ok (some t)
    | .exn .valueError => .ok none
    | .exn e => .exn e

/-- Models `PackageTestAnalyzer._get_test_status`: the captured exit-status
string `"0"` maps to `"Pass"`, anything else to `"Fail"`. -/
def getTestStatus (tok : List Char) : String :=
  if tok = ['0'] then "Pass" else "Fail"

/-- The start-marker branch of the scan loop: when the line matches
PACKAGE_TEST_START_REGEX, `start_time` is overwritten with the line's
timestamp (which may raise); otherwise it is left unchanged. -/
def startUpdate {T : Type} (dparse : List Char → PyResult T) (line : List Char)
    (st : Option T) : PyResult (Option T) :=
  if containsSub startLit line then pyGetTimestamp dparse line else .ok st

/-- The adjustment after the scan loop (also reached via `break`): when
`start_time` is set and `end_time` is not, the status is overwritten with
`"Aborted"`. -/
def adjust {T : Type} (status : String) (st et : Option T) :
    String × Option T × Option T :=
  (if st.isSome && et.isNone then "Aborted" else status, st, et)

/-- The loop of `PackageTestAnalyzer._get_test_details`, with the mutable
locals `start_time`, `end_time`, `status` made explicit.  Each line is
stripped of newlines; an ignore-marker line is skipped; a start-marker line
overwrites `start_time`; an end-marker line records `end_time` and the
exit-status-derived status and breaks; a skip-marker line sets the status to
`"Skipped"` and breaks.  The post-loop `"Aborted"` adjustment is applied on
every exit path that returns. -/
def scanLoop {T : Type} (dparse : List Char → PyResult T) (st et : Option T)
    (status : String) : List (List Char) → PyResult (String × Option T × Option T)
  | [] => .ok (adjust status st et)
  | l :: ls =>
    let line := pyStripNL l
    if containsSub ignoreLit line then scanLoop dparse st et status ls
    else
      match startUpdate dparse line st with
      | .exn e => .exn e
      | .ok st' =>
        match endCapture line with
        | some tok =>
          match pyGetTimestamp dparse line with
          | .exn e => .exn e
          | .ok et' => .ok (adjust (getTestStatus tok) st' et')
        | none =>
          if containsSub skipLit line then .ok (adjust "Skipped" st' et)
          else scanLoop dparse st' et status ls

/-- Models `PackageTestAnalyzer._get_test_details` on the sequence of lines of
one log file: the scan starts with no timestamps and status
`"Not Supported"`. -/
def getTestDetails {T : Type} (dparse : List Char → PyResult T)
    (lines : List (List Char)) : PyResult (String × Option T × Option T) :=
  scanLoop dparse none none "Not Supported" lines

/-- Whether `_get_timestamp` raises an uncaught exception on `line` (with the
given timestamp parser). -/
def tsRaises {T : Type} (dparse : List Char → PyResult T) (line : List Char) : Bool :=
  match pyGetTimestamp dparse line with
  | .ok _ => false
  | .exn _ => true

/-- Whether processing the (unstripped) line `l` inside the scan loop cannot
raise: timestamp extraction happens exactly when the stripped line is not an
ignore-marker line and matches the start marker or the end pattern. -/
def lineNoRaise {T : Type} (dparse : List Char → PyResult T) (l : List Char) : Bool :=
  let line := pyStripNL l
  if containsSub ignoreLit line then true
  else if containsSub startLit line || (endCapture line).isSome then
    !(tsRaises dparse line)
  else true

/-- Whether the scan of `lines` terminates via the `break` statement, i.e.
reaches (without an earlier break or uncaught exception) a non-ignored line
matching the end pattern whose timestamp extraction does not raise, or a
non-ignored, non-end line matching the skip marker. -/
def scanBreaks {T : Type} (dparse : List Char → PyResult T) :
    List (List Char) → Bool
  | [] => false
  | l :: ls =>
    let line := pyStripNL l
    if containsSub ignoreLit line then scanBreaks dparse ls
    else if (containsSub startLit line || (endCapture line).isSome) &&
            tsRaises dparse line then false
    else if (endCapture line).isSome then true
    else if containsSub skipLit line then true
    else scanBreaks dparse ls

/-- The value of the scan's `start_time` local after processing all of `lines`
without breaking: the fold of the start-marker branch alone.  Propagates an
uncaught exception of the start branch. -/
def finalStart {T : Type} (dparse : List Char → PyResult T) (st : Option T) :
    List (List Char) → PyResult (Option T)
  | [] => .ok st
  | l :: ls =>
    let line := pyStripNL l
    if containsSub ignoreLit line then finalStart dparse st ls
    else
      match startUpdate dparse line st with
      | .exn e => .exn e
      | .ok st' => finalStart dparse st' ls

/-- Numeric value of an ASCII digit character. -/
def digitVal (c : Char) : Nat := c.toNat - 48

/-- Days from 1 March of year 0 (proleptic Gregorian) to the given civil date,
computed with the standard era/year-of-era formula; valid for years ≥ 1. -/
def civilDays (y m d : Nat) : Nat :=
  let y' := if m ≤ 2 then y - 1 else y
  let era := y' / 400
  let yoe := y' % 400
  let m' := if 2 < m then m - 3 else m + 9
  let doy := (153 * m' + 2) / 5 + d - 1
  let doe := yoe * 365 + yoe / 4 - yoe / 100 + doy
  era * 146097 + doe

/-- Epoch seconds of a UTC civil date-time (day 719468 of the era count is
1970-01-01). -/
def isoEpochVal (y mo d h mi s : Nat) : Int :=
  ((civilDays y mo d : Int) - 719468) * 86400 + (h * 3600 + mi * 60 + s : Nat)

/-- Models `dateutil.parser.parse(s).timestamp()` restricted to UTC ISO-8601
strings of the exact shape `YYYY-MM-DDTHH:MM:SSZ` with year ≥ 1970; every
other input is modelled as raising `ParserError`, which is a `ValueError`
(dateutil's behaviour on unparsable strings).  Used only to instantiate the
abstract parse function on concrete inputs. -/
def isoEpoch (s : List Char) : PyResult Int :=
  match s with
  | [y1, y2, y3, y4, '-', m1, m2, '-', d1, d2, 'T',
     h1, h2, ':', n1, n2, ':', s1, s2, 'Z'] =>
    if y1.isDigit && y2.isDigit && y3.isDigit && y4.isDigit &&
       m1.isDigit && m2.isDigit && d1.isDigit && d2.isDigit &&
       h1.isDigit && h2.isDigit && n1.isDigit && n2.isDigit &&
       s1.isDigit && s2.isDigit then
      let y := digitVal y1 * 1000 + digitVal y2 * 100 + digitVal y3 * 10 + digitVal y4
      let mo := digitVal m1 * 10 + digitVal m2
      let d := digitVal d1 * 10 + digitVal d2
      let h := digitVal h1 * 10 + digitVal h2
      let mi := digitVal n1 * 10 + digitVal n2
      let sec := digitVal s1 * 10 + digitVal s2
      if 1970 ≤ y ∧ 1 ≤ mo ∧ mo ≤ 12 ∧ 1 ≤ d ∧ d ≤ 31 ∧
         h ≤ 23 ∧ mi ≤ 59 ∧ sec ≤ 59 then
        .ok (isoEpochVal y mo d h mi sec)
      else .exn .valueError
    else .exn .valueError
  | _ => .exn .valueError

/-- The tail of TEST_FILE_REGEX, `(\.src.rpm.test.log)`, as a sequence of
character predicates: `some c` is a literal character, `none` is the
unescaped `.` of the pattern, matching any character except a newline. -/
def tailPat : List (Option Char) :=
  [some '.', some 's', some 'r', some 'c', none, some 'r', some 'p', some 'm',
   none, some 't', some 'e', some 's', some 't', none, some 'l', some 'o', some 'g']

/-- Whether the pattern `p` matches a leading segment of `s`. -/
def patStartsWith : List (Option Char) → List Char → Bool
  | [], _ => true
  | _ :: _, [] => false
  | p :: ps, c :: cs =>
    (match p with
     | some a => a == c
     | none => c != '\n') && patStartsWith ps cs

/-- Matching of `(.*?)(\.src.rpm.test.log)` against `s`: the lazy group takes
the shortest newline-free segment after which the tail pattern matches;
returns the capture of the lazy group. -/
def matchFrom3 : List Char → Option (List Char)
  | [] => if patStartsWith tailPat [] then some [] else none
  | c :: cs =>
    if patStartsWith tailPat (c :: cs) then some []
    else if c == '\n' then none
    else (matchFrom3 cs).map (fun g3 => c :: g3)

/-- Matching of `(.*)-(.*?)(\.src.rpm.test.log)` against `s`: the greedy group
takes the longest newline-free segment followed by a `-` after which the rest
matches; returns the captures of groups 3 and 4 of TEST_FILE_REGEX. -/
def matchFrom2 : List Char → Option (List Char × List Char)
  | [] => none
  | c :: cs =>
    match (if c == '\n' then none
           else (matchFrom2 cs).map (fun p => (c :: p.1, p.2))) with
    | some r => some r
    | none =>
      if c == '-' then (matchFrom3 cs).map (fun g3 => ([], g3)) else none

/-- Matching of `(.*)-(.*)-(.*?)(\.src.rpm.test.log)` against `s`: the
outermost greedy group takes the longest newline-free segment followed by a
`-` after which the rest matches; returns the captures of groups 2, 3 and 4
of TEST_FILE_REGEX. -/
def matchFrom1 : List Char → Option (List Char × List Char × List Char)
  | [] => none
  | c :: cs =>
    match (if c == '\n' then none
           else (matchFrom1 cs).map (fun p => (c :: p.1, p.2))) with
    | some r => some r
    | none =>
      if c == '-' then (matchFrom2 cs).map (fun p => ([], p.1, p.2)) else none

/-- Models `TEST_FILE_REGEX.search(log_path).groups()` restricted to inputs
containing no `/` (so the leading directory group `(.*/)*` matches zero times
and captures nothing): the three captures used by the caller, namely groups
at TEST_FILE_PACKAGE_NAME_INDEX, TEST_FILE_PACKAGE_VERSION_INDEX and
TEST_FILE_PACKAGE_RELEASE_INDEX; `none` when the regex does not match. -/
def testFileGroups (s : List Char) : Option (List Char × List Char × List Char) :=
  matchFrom1 s

/-- Models `PackageTestAnalyzer._get_package_details` on a path without
directory components: the package name is the capture at
TEST_FILE_PACKAGE_NAME_INDEX and the version string is the version and
release captures joined by `-`; `none` models the `AttributeError` the code
would raise when the filename does not match. -/
def getPackageDetails (log_path : List Char) : Option (List Char × List Char) :=
  (testFileGroups log_path).map (fun g => (g.1, g.2.1 ++ '-' :: g.2.2))

/-- The argparse destination names declared by process_check_logs.py (lines
281-285); argparse sets exactly these as attributes of the parsed-arguments
namespace. -/
def declaredDests : List String :=
  ["log_dir", "use_ado_logger", "output_junit_xml", "output_md", "test_suite_name"]

/-- Outcome of an attribute lookup on the parsed-arguments namespace. -/
inductive AttrResult where
  | found
  | attributeError
deriving DecidableEq, Repr

/-- Models `getattr(args, name)`: a declared destination is found, any other
name raises `AttributeError`. -/
def argsGetattr (name : String) : AttrResult :=
  if declaredDests.contains name then .found else .attributeError

/-- Outcome of the JUnit-XML output branch of process_check_logs.py. -/
inductive JunitBranchOutcome where
  | branchSkipped
  | fileWritten
  | attributeError
deriving DecidableEq, Repr

/-- Models lines 304-306 of process_check_logs.py: when
`args.output_junit_xml` is truthy (supplied and non-empty) the branch first
evaluates `args.junit_xml_filename` to obtain the path to open; an attribute
lookup failure aborts the branch before any file is written. -/
def junitXmlBranch (output_junit_xml : Option String) : JunitBranchOutcome :=
  match output_junit_xml with
  | none => .branchSkipped
  | some v =>
    if v = "" then .branchSkipped
    else
      match argsGetattr "junit_xml_filename" with
      | .found => .fileWritten
      | .attributeError => .attributeError

/-- Concrete log line: a start-marker line whose timestamp parses to epoch
second 86400 (1970-01-02). -/
def startLine : List Char :=
  ("time=\"1970-01-02T00:00:00Z\" msg=\"====== CHECK START pkg\"").data

/-- Concrete log line: an end-marker line with exit status 0 whose timestamp
parses to epoch second 0 (1970-01-01), earlier than `startLine`. -/
def endLine0 : List Char :=
  ("time=\"1970-01-01T00:00:00Z\" msg=\"====== CHECK DONE pkg. EXIT STATUS 0\"").data

/-- Concrete log line: an end-marker line with exit status 2. -/
def endLine2 : List Char :=
  ("time=\"1970-01-01T00:00:02Z\" msg=\"====== CHECK DONE pkg. EXIT STATUS 2\"").data

/-- Concrete log line: a skip-marker line. -/
def skipLine : List Char :=
  ("time=\"1970-01-01T00:00:01Z\" msg=\"====== SKIPPING CHECK pkg\"").data

/-- Concrete log line: matches the start marker, but the token before the
first space contains no `=`, so timestamp extraction raises `IndexError`. -/
def noEqStartLine : List Char := ("X msg=\"====== CHECK START").data

/-- Concrete log line: the bare start marker; the extracted timestamp text is
the empty string, which fails to parse (a caught `ValueError`). -/
def bareStartLine : List Char := ("msg=\"====== CHECK START").data

end ProcessCheckLogs

namespace RunPtests

/-- One entry of the test_results.json mapping consumed by run_ptests.py: the
`Result` string, the `ExpectedFailure` flag and the `LogPath` string. -/
structure SrpmResult where
  result : String
  expectedFailure : Bool
  logPath : String
deriving DecidableEq, Repr

/-- The six counters the reporting loop maintains. -/
structure Counters where
  unexpected_fail_count : Nat
  expected_fail_count : Nat
  skip_count : Nat
  block_count : Nat
  expected_success_count : Nat
  unexpected_success_count : Nat
deriving DecidableEq, Repr

/-- All counters start at zero. -/
def initialCounters : Counters := ⟨0, 0, 0, 0, 0, 0⟩

/-- One iteration of the result-dispatch loop of run_ptests.py: `"skipped"`,
`"blocked"`, `"failed"` (split on `ExpectedFailure`) and `"succeeded"` (split
on `ExpectedFailure`) each bump their counter; any other `Result` value takes
the unknown-result branch and changes no counter. -/
def tally (c : Counters) (r : SrpmResult) : Counters :=
  if r.result = "skipped" then { c with skip_count := c.skip_count + 1 }
  else if r.result = "blocked" then { c with block_count := c.block_count + 1 }
  else if r.result = "failed" then
    if r.expectedFailure then { c with expected_fail_count := c.expected_fail_count + 1 }
    else { c with unexpected_fail_count := c.unexpected_fail_count + 1 }
  else if r.result = "succeeded" then
    if r.expectedFailure then
      { c with unexpected_success_count := c.unexpected_success_count + 1 }
    else { c with expected_success_count := c.expected_success_count + 1 }
  else c

/-- Models the exit status of run_ptests.py after the reporting stage: the
dispatch loop runs over all entries, then `sys.exit(1)` fires exactly when
`unexpected_fail_count > 0 or block_count > 0`; otherwise the script falls
off the end and exits 0. -/
def runExitCode (rs : List SrpmResult) : Nat :=
  let c := rs.foldl tally initialCounters
  if 0 < c.unexpected_fail_count ∨ 0 < c.block_count then 1 else 0

end RunPtests

namespace ProcessCheckLogs

/-- Every normally-returned result of the scan loop is produced by the
post-loop adjustment. -/
theorem scanLoop_ok_shape {T : Type} (dparse : List Char → PyResult T) :
    ∀ (lines : List (List Char)) (st et : Option T) (status : String)
      (r : String × Option T × Option T),
    scanLoop dparse st et status lines = .ok r →
    ∃ s0 st0 et0, r = adjust s0 st0 et0 := by
  intro lines
  induction lines with
  | nil =>
    intro st et status r h
    unfold scanLoop at h
    exact ⟨status, st, et, (PyResult.ok.injEq _ _ ▸ h).symm⟩
  | cons l ls ih =>
    intro st et status r h
    unfold scanLoop at h
    by_cases hig : containsSub ignoreLit (pyStripNL l) = true
    · simp only [hig, if_true] at h
      exact ih st et status r h
    · simp only [Bool.not_eq_true] at hig
      simp only [hig, Bool.false_eq_true, if_false] at h
      cases hsu : startUpdate dparse (pyStripNL l) st with
      | exn e => rw [hsu] at h; exact absurd h (by simp)
      | ok st' =>
        rw [hsu] at h
        cases hec : endCapture (pyStripNL l) with
        | some tok =>
          rw [hec] at h
          cases hts : pyGetTimestamp dparse (pyStripNL l) with
          | exn e => rw [hts] at h; exact absurd h (by simp)
          | ok et' =>
            rw [hts] at h
            exact ⟨getTestStatus tok, st', et', (PyResult.ok.injEq _ _ ▸ h).symm⟩
        | none =>
          rw [hec] at h
          by_cases hsk : containsSub skipLit (pyStripNL l) = true
          · simp only [hsk, if_true] at h
            exact ⟨"Skipped", st', et, (PyResult.ok.injEq _ _ ▸ h).symm⟩
          · simp only [Bool.not_eq_true] at hsk
            simp only [hsk, Bool.false_eq_true, if_false] at h
            exact ih st' et status r h

/-- C1: whenever the classifier returns normally with `start_time` set and
`end_time` unset, the returned status is `"Aborted"` — for every input line
sequence and every timestamp parser, hence regardless of which other markers
were seen (including a skip marker after the start marker, or an end marker
whose timestamp failed to parse). -/
theorem c1_start_without_end_is_aborted {T : Type}
    (dparse : List Char → PyResult T) (lines : List (List Char))
    (s : String) (t : T)
    (h : getTestDetails dparse lines = .ok (s, some t, none)) :
    s = "Aborted" := by
  obtain ⟨s0, st0, et0, hr⟩ :=
    scanLoop_ok_shape dparse lines none none "Not Supported" _ h
  have h1 : s = (adjust s0 st0 et0).1 := congrArg Prod.fst hr
  have h2 : some t = (adjust s0 st0 et0).2.1 := congrArg (fun p => p.2.1) hr
  have h3 : (none : Option T) = (adjust s0 st0 et0).2.2 := congrArg (fun p => p.2.2) hr
  unfold adjust at h1 h2 h3
  simp only at h1 h2 h3
  rw [h1, ← h2, ← h3]
  simp

theorem c1_witness :
    getTestDetails isoEpoch [startLine] = .ok ("Aborted", some 86400, none) ∧
    ("Aborted" : String) = "Aborted" :=
  ⟨by decide, c1_start_without_end_is_aborted isoEpoch [startLine] "Aborted" 86400 (by decide)⟩

end ProcessCheckLogs

namespace ProcessCheckLogs

/-- C2 (counterexample): in the two-line sequence `[startLine, skipLine]` the
skip marker matches the second line, no line matches the end pattern, and a
start marker was matched on the first line — yet the classifier returns
status `"Aborted"`, not `"Skipped"`: the post-loop adjustment overrides the
`"Skipped"` set at the break. -/
theorem c2_counterexample :
    containsSub startLit (pyStripNL startLine) = true ∧
    containsSub skipLit (pyStripNL skipLine) = true ∧
    endCapture (pyStripNL startLine) = none ∧
    endCapture (pyStripNL skipLine) = none ∧
    getTestDetails isoEpoch [startLine, skipLine] =
      .ok ("Aborted", some 86400, none) ∧
    ("Aborted" : String) ≠ "Skipped" :=
  ⟨by decide, by decide, by decide, by decide, by decide, by decide⟩

/-- C2 (amended): when the scan reaches a non-ignored line that matches the
skip marker and not the end pattern, it sets the status to `"Skipped"` and
stops scanning at that line (the remaining lines `ls` are discarded); the
returned status is `"Skipped"` when no start time has been recorded, but the
post-loop adjustment turns it into `"Aborted"` when one has. -/
theorem c2_skip_stops_scan {T : Type} (dparse : List Char → PyResult T)
    (st st' : Option T) (status : String) (l : List Char) (ls : List (List Char))
    (hig : containsSub ignoreLit (pyStripNL l) = false)
    (hend : endCapture (pyStripNL l) = none)
    (hskip : containsSub skipLit (pyStripNL l) = true)
    (hstart : startUpdate dparse (pyStripNL l) st = .ok st') :
    scanLoop dparse st none status (l :: ls) =
      .ok (if st'.isSome then "Aborted" else "Skipped", st', none) := by
  unfold scanLoop
  simp only [hig, Bool.false_eq_true, if_false, hstart, hend, hskip, if_true]
  unfold adjust
  cases st' <;> simp

theorem c2_witness :
    containsSub ignoreLit (pyStripNL skipLine) = false ∧
    endCapture (pyStripNL skipLine) = none ∧
    containsSub skipLit (pyStripNL skipLine) = true ∧
    startUpdate isoEpoch (pyStripNL skipLine) (some (86400 : Int)) = .ok (some 86400) ∧
    scanLoop isoEpoch (some (86400 : Int)) none "Not Supported" [skipLine] =
      .ok ("Aborted", some 86400, none) := by
  refine ⟨by decide, by decide, by decide, by decide, ?_⟩
  have h := c2_skip_stops_scan isoEpoch (some (86400 : Int)) (some 86400)
    "Not Supported" skipLine [] (by decide) (by decide) (by decide) (by decide)
  simpa using h

end ProcessCheckLogs

namespace ProcessCheckLogs

/-- Absence of an uncaught timestamp exception is the same as the timestamp
extraction returning normally. -/
theorem tsRaises_false_iff {T : Type} (dparse : List Char → PyResult T)
    (line : List Char) :
    tsRaises dparse line = false ↔ ∃ o, pyGetTimestamp dparse line = .ok o := by
  unfold tsRaises
  cases h : pyGetTimestamp dparse line <;> simp

/-- The scan loop returns normally on every line list whose lines cannot make
the timestamp extraction raise. -/
theorem scanLoop_ok_of_noRaise {T : Type} (dparse : List Char → PyResult T) :
    ∀ (lines : List (List Char)) (st et : Option T) (status : String),
    (∀ l ∈ lines, lineNoRaise dparse l = true) →
    ∃ r, scanLoop dparse st et status lines = .ok r := by
  intro lines
  induction lines with
  | nil => intro st et status _; exact ⟨adjust status st et, rfl⟩
  | cons l ls ih =>
    intro st et status h
    have hl := h l (List.mem_cons_self l ls)
    have hls : ∀ l' ∈ ls, lineNoRaise dparse l' = true :=
      fun l' hm => h l' (List.mem_cons_of_mem l hm)
    unfold lineNoRaise at hl
    unfold scanLoop
    by_cases hig : containsSub ignoreLit (pyStripNL l) = true
    · simp only [hig, if_true]
      exact ih st et status hls
    · simp only [Bool.not_eq_true] at hig
      simp only [hig, Bool.false_eq_true, if_false] at hl ⊢
      by_cases hse : (containsSub startLit (pyStripNL l) ||
          (endCapture (pyStripNL l)).isSome) = true
      · simp only [hse, if_true, Bool.not_eq_true'] at hl
        obtain ⟨o, ho⟩ := (tsRaises_false_iff dparse (pyStripNL l)).mp hl
        have hsu : startUpdate dparse (pyStripNL l) st = .ok st ∨
            startUpdate dparse (pyStripNL l) st = .ok o := by
          unfold startUpdate
          by_cases hs : containsSub startLit (pyStripNL l) = true
          · right; simp [hs, ho]
          · left; simp [hs]
        rcases hsu with hsu | hsu <;> rw [hsu] <;>
        · cases hec : endCapture (pyStripNL l) with
          | some tok => rw [ho]; exact ⟨_, rfl⟩
          | none =>
            by_cases hsk : containsSub skipLit (pyStripNL l) = true
            · simp only [hsk, if_true]; exact ⟨_, rfl⟩
            · simp only [Bool.not_eq_true] at hsk
              simp only [hsk, Bool.false_eq_true, if_false]
              exact ih _ et status hls
      · have hs : containsSub startLit (pyStripNL l) = false := by
          cases hcs : containsSub startLit (pyStripNL l) <;> simp [hcs] at hse ⊢
        have hec : endCapture (pyStripNL l) = none := by
          cases hce : endCapture (pyStripNL l) <;> simp [hce, hs] at hse ⊢
        have hsu : startUpdate dparse (pyStripNL l) st = .ok st := by
          unfold startUpdate; simp [hs]
        rw [hsu, hec]
        by_cases hsk : containsSub skipLit (pyStripNL l) = true
        · simp only [hsk, if_true]; exact ⟨_, rfl⟩
        · simp only [Bool.not_eq_true] at hsk
          simp only [hsk, Bool.false_eq_true, if_false]
          exact ih st et status hls

/-- C3 (counterexample): on the single-line input `[noEqStartLine]` — a line
matching the start marker whose leading token contains no `=` — the
classifier does not return: `split("=")[1]` raises an `IndexError`, which the
`except ValueError` handler does not catch. -/
theorem c3_counterexample :
    containsSub startLit (pyStripNL noEqStartLine) = true ∧
    getTestDetails isoEpoch [noEqStartLine] = .exn .indexError :=
  ⟨by decide, by decide⟩

/-- C3 (amended): timestamp-parse `ValueError`s on start- or end-marker lines
are caught and treated as no timestamp available, and whenever no line makes
the timestamp extraction raise an uncaught exception (such as the
`IndexError` when the leading token has no `=`), the classifier returns
normally. -/
theorem c3_returns_when_no_uncaught_exception {T : Type}
    (dparse : List Char → PyResult T) (lines : List (List Char))
    (h : ∀ l ∈ lines, lineNoRaise dparse l = true) :
    ∃ r, getTestDetails dparse lines = .ok r :=
  scanLoop_ok_of_noRaise dparse lines none none "Not Supported" h

theorem c3_witness :
    (∀ l ∈ [startLine, endLine2, bareStartLine], lineNoRaise isoEpoch l = true) ∧
    ∃ r, getTestDetails isoEpoch [startLine, endLine2, bareStartLine] = .ok r :=
  ⟨by decide,
   c3_returns_when_no_uncaught_exception isoEpoch [startLine, endLine2, bareStartLine]
     (by decide)⟩

end ProcessCheckLogs

namespace ProcessCheckLogs

/-- A successful match of the exit-status tail yields a nonempty all-digit
capture. -/
theorem matchExitAt_digits (s d : List Char) (h : matchExitAt s = some d) :
    d ≠ [] ∧ ∀ c ∈ d, c.isDigit = true := by
  unfold matchExitAt at h
  split at h
  · by_cases he : ((s.drop exitLit.length).takeWhile Char.isDigit).isEmpty = true
    · simp only [he, if_true] at h
      exact absurd h (by simp)
    · simp only [he, Bool.false_eq_true, if_false, Option.some.injEq] at h
      subst h
      refine ⟨by simpa [List.isEmpty_iff] using he, ?_⟩
      intro c hc
      exact List.mem_takeWhile_imp hc
  · exact absurd h (by simp)

/-- The greedy backtracking step preserves the capture's shape. -/
theorem greedyExit_digits :
    ∀ (s d : List Char), greedyExit s = some d →
    d ≠ [] ∧ ∀ c ∈ d, c.isDigit = true := by
  intro s
  induction s with
  | nil => intro d h; exact absurd h (by simp [greedyExit])
  | cons c cs ih =>
    intro d h
    unfold greedyExit at h
    split at h
    next d' heq =>
      cases h
      by_cases hc : (c == '\n') = true
      · simp [hc] at heq
      · simp only [hc, Bool.false_eq_true, if_false] at heq
        exact ih _ heq
    next => exact matchExitAt_digits _ d h

/-- Every capture of the end pattern is a nonempty string of digits. -/
theorem endCapture_digits :
    ∀ (line d : List Char), endCapture line = some d →
    d ≠ [] ∧ ∀ c ∈ d, c.isDigit = true := by
  intro line
  induction line with
  | nil => intro d h; exact absurd h (by simp [endCapture])
  | cons c cs ih =>
    intro d h
    unfold endCapture at h
    split at h
    next d' heq =>
      cases h
      by_cases hd : listStartsWith doneLit (c :: cs) = true
      · simp only [hd, if_true] at heq
        exact greedyExit_digits _ _ heq
      · simp [hd] at heq
    next => exact ih d h

/-- C4: every line on which the end pattern matches captures a nonempty
numeric exit-status token, and that token alone determines the status:
`"0"` yields `"Pass"`, any other captured digit string yields `"Fail"`, and
no value other than `"Pass"` or `"Fail"` can be produced from an end-marker
match. -/
theorem c4_exit_token_determines_status (line tok : List Char)
    (h : endCapture line = some tok) :
    tok ≠ [] ∧ (∀ c ∈ tok, c.isDigit = true) ∧
    getTestStatus tok = (if tok = ['0'] then "Pass" else "Fail") ∧
    (getTestStatus tok = "Pass" ∨ getTestStatus tok = "Fail") := by
  obtain ⟨h1, h2⟩ := endCapture_digits line tok h
  refine ⟨h1, h2, rfl, ?_⟩
  unfold getTestStatus
  split
  · exact Or.inl rfl
  · exact Or.inr rfl

theorem c4_witness :
    endCapture (pyStripNL endLine2) = some ['2'] ∧
    (['2'] : List Char) ≠ [] ∧ (∀ c ∈ (['2'] : List Char), c.isDigit = true) ∧
    getTestStatus ['2'] = (if (['2'] : List Char) = ['0'] then "Pass" else "Fail") ∧
    (getTestStatus ['2'] = "Pass" ∨ getTestStatus ['2'] = "Fail") :=
  ⟨by decide, c4_exit_token_determines_status (pyStripNL endLine2) ['2'] (by decide)⟩

end ProcessCheckLogs

namespace ProcessCheckLogs

/-- When the scan of `pre` terminates via `break`, lines appended after `pre`
are never inspected: the loop computes the same result on `pre ++ suffix` as
on `pre`, from any loop state. -/
theorem scanLoop_append_of_breaks {T : Type} (dparse : List Char → PyResult T) :
    ∀ (pre : List (List Char)), scanBreaks dparse pre = true →
    ∀ (st et : Option T) (status : String) (suffix : List (List Char)),
    scanLoop dparse st et status (pre ++ suffix) =
      scanLoop dparse st et status pre := by
  intro pre
  induction pre with
  | nil => intro h; simp [scanBreaks] at h
  | cons l ls ih =>
    intro h st et status suffix
    unfold scanBreaks at h
    rw [List.cons_append]
    unfold scanLoop
    by_cases hig : containsSub ignoreLit (pyStripNL l) = true
    · simp only [hig, if_true] at h ⊢
      exact ih h st et status suffix
    · simp only [Bool.not_eq_true] at hig
      simp only [hig, Bool.false_eq_true, if_false] at h ⊢
      by_cases hr : ((containsSub startLit (pyStripNL l) ||
          (endCapture (pyStripNL l)).isSome) && tsRaises dparse (pyStripNL l)) = true
      · simp [hr] at h
      · simp only [hr, Bool.false_eq_true, if_false] at h
        cases hsu : startUpdate dparse (pyStripNL l) st with
        | exn e => rfl
        | ok st' =>
          cases hec : endCapture (pyStripNL l) with
          | some tok =>
            cases hts : pyGetTimestamp dparse (pyStripNL l) with
            | exn e => rfl
            | ok et' => rfl
          | none =>
            simp only [hec] at h
            by_cases hsk : containsSub skipLit (pyStripNL l) = true
            · simp only [hsk, if_true]
            · simp only [Bool.not_eq_true] at hsk
              simp only [hsk, Bool.false_eq_true, if_false,
                Option.isSome_none] at h ⊢
              exact ih h st' et status suffix

/-- C5: when the scan of `pre` terminates at an end- or skip-marker match
(the `break` of the loop), appending any further lines — including lines
carrying conflicting markers — leaves the classifier's returned
`(status, start_time, end_time)` unchanged: the appended lines are never
inspected. -/
theorem c5_break_discards_suffix {T : Type} (dparse : List Char → PyResult T)
    (pre suffix : List (List Char)) (h : scanBreaks dparse pre = true) :
    getTestDetails dparse (pre ++ suffix) = getTestDetails dparse pre :=
  scanLoop_append_of_breaks dparse pre h none none "Not Supported" suffix

theorem c5_witness :
    scanBreaks isoEpoch [startLine, endLine0] = true ∧
    getTestDetails isoEpoch ([startLine, endLine0] ++ [skipLine, endLine2]) =
      getTestDetails isoEpoch [startLine, endLine0] :=
  ⟨by decide,
   c5_break_discards_suffix isoEpoch [startLine, endLine0] [skipLine, endLine2]
     (by decide)⟩

end ProcessCheckLogs

namespace ProcessCheckLogs

/-- C6 (counterexample): `[startLine, endLine0]` is a start-marker line
followed by an end-marker line with exit-status token `"0"`, and both
timestamps parse successfully (to 86400 and 0 epoch seconds) — the result
status is `"Pass"` with both timestamps set, yet `end_time < start_time`:
nothing in the code enforces `end_time ≥ start_time`. -/
theorem c6_counterexample :
    pyGetTimestamp isoEpoch (pyStripNL startLine) = .ok (some 86400) ∧
    pyGetTimestamp isoEpoch (pyStripNL endLine0) = .ok (some 0) ∧
    endCapture (pyStripNL endLine0) = some ['0'] ∧
    getTestDetails isoEpoch [startLine, endLine0] =
      .ok ("Pass", some 86400, some 0) ∧
    ¬ ((0 : Int) ≥ 86400) :=
  ⟨by decide, by decide, by decide, by decide, by decide⟩

/-- C6 (amended): for every two-line sequence of a start-marker line followed
by an end-marker line capturing exit-status token `"0"`, when both lines'
timestamps parse successfully the result is status `"Pass"` with `start_time`
and `end_time` equal to the two parsed timestamps; no ordering between the
two timestamps is guaranteed. -/
theorem c6_pass_with_both_timestamps {T : Type} (dparse : List Char → PyResult T)
    (l1 l2 : List Char) (t1 t2 : T)
    (h1ig : containsSub ignoreLit (pyStripNL l1) = false)
    (h1st : containsSub startLit (pyStripNL l1) = true)
    (h1end : endCapture (pyStripNL l1) = none)
    (h1skip : containsSub skipLit (pyStripNL l1) = false)
    (h1ts : pyGetTimestamp dparse (pyStripNL l1) = .ok (some t1))
    (h2ig : containsSub ignoreLit (pyStripNL l2) = false)
    (h2st : containsSub startLit (pyStripNL l2) = false)
    (h2end : endCapture (pyStripNL l2) = some ['0'])
    (h2ts : pyGetTimestamp dparse (pyStripNL l2) = .ok (some t2)) :
    getTestDetails dparse [l1, l2] = .ok ("Pass", some t1, some t2) := by
  unfold getTestDetails scanLoop
  simp only [h1ig, Bool.false_eq_true, if_false]
  unfold startUpdate
  simp only [h1st, if_true, h1ts, h1end, h1skip, if_false]
  unfold scanLoop
  simp only [h2ig, Bool.false_eq_true, if_false]
  unfold startUpdate
  simp only [h2st, Bool.false_eq_true, if_false, h2end, h2ts]
  unfold adjust getTestStatus
  simp

theorem c6_witness :
    getTestDetails isoEpoch [startLine, endLine0] = .ok ("Pass", some 86400, some 0) :=
  c6_pass_with_both_timestamps isoEpoch startLine endLine0 86400 0
    (by decide) (by decide) (by decide) (by decide) (by decide)
    (by decide) (by decide) (by decide) (by decide)

end ProcessCheckLogs

namespace ProcessCheckLogs

/-- On a line list with no end- or skip-marker among the non-ignored lines,
the loop never breaks, and its result is the post-loop adjustment applied to
the folded start time. -/
theorem scanLoop_of_no_terminal {T : Type} (dparse : List Char → PyResult T) :
    ∀ (lines : List (List Char)) (st : Option T) (status : String),
    (∀ l ∈ lines, containsSub ignoreLit (pyStripNL l) = false →
      endCapture (pyStripNL l) = none ∧
      containsSub skipLit (pyStripNL l) = false) →
    ∀ st', finalStart dparse st lines = .ok st' →
    scanLoop dparse st none status lines = .ok (adjust status st' none) := by
  intro lines
  induction lines with
  | nil =>
    intro st status _ st' hfs
    unfold finalStart at hfs
    unfold scanLoop
    rw [(PyResult.ok.injEq _ _ ▸ hfs : st = st')]
  | cons l ls ih =>
    intro st status h st' hfs
    have hls : ∀ l' ∈ ls, containsSub ignoreLit (pyStripNL l') = false →
        endCapture (pyStripNL l') = none ∧
        containsSub skipLit (pyStripNL l') = false :=
      fun l' hm => h l' (List.mem_cons_of_mem l hm)
    unfold finalStart at hfs
    unfold scanLoop
    by_cases hig : containsSub ignoreLit (pyStripNL l) = true
    · simp only [hig, if_true] at hfs ⊢
      exact ih st status hls st' hfs
    · simp only [Bool.not_eq_true] at hig
      simp only [hig, Bool.false_eq_true, if_false] at hfs ⊢
      obtain ⟨hec, hsk⟩ := h l (List.mem_cons_self l ls) hig
      cases hsu : startUpdate dparse (pyStripNL l) st with
      | exn e => rw [hsu] at hfs; exact absurd hfs (by simp)
      | ok st'' =>
        rw [hsu] at hfs
        simp only [hec, hsk, Bool.false_eq_true, if_false]
        exact ih st'' status hls st' hfs

/-- C7 (counterexample): `[bareStartLine]` is a line sequence containing a
start-marker line and no end- or skip-marker line, yet the classifier
returns `("Not Supported", None, None)`, not `Aborted`: the line's extracted
timestamp text is empty, its parse fails with a caught `ValueError`, so no
start time is recorded and the post-loop adjustment does not fire. -/
theorem c7_counterexample :
    containsSub startLit (pyStripNL bareStartLine) = true ∧
    endCapture (pyStripNL bareStartLine) = none ∧
    containsSub skipLit (pyStripNL bareStartLine) = false ∧
    getTestDetails isoEpoch [bareStartLine] = .ok ("Not Supported", none, none) ∧
    ("Not Supported" : String) ≠ "Aborted" :=
  ⟨by decide, by decide, by decide, by decide, by decide⟩

/-- C7 (amended): for every line sequence with no end- or skip-marker line
among its non-ignored lines, if the scan's recorded start time ends up set
(in particular some start-marker line was seen and the last one processed
had a parseable timestamp), the result is status `"Aborted"` with
`start_time` set to that time and `end_time = None`; when no start time is
recorded the status stays `"Not Supported"` instead. -/
theorem c7_aborted_when_start_recorded {T : Type}
    (dparse : List Char → PyResult T) (lines : List (List Char)) (t : T)
    (hmk : ∀ l ∈ lines, containsSub ignoreLit (pyStripNL l) = false →
      endCapture (pyStripNL l) = none ∧
      containsSub skipLit (pyStripNL l) = false)
    (hfs : finalStart dparse none lines = .ok (some t)) :
    getTestDetails dparse lines = .ok ("Aborted", some t, none) := by
  have h := scanLoop_of_no_terminal dparse lines none "Not Supported" hmk (some t) hfs
  simpa [adjust] using h

theorem c7_witness :
    (∀ l ∈ [startLine], containsSub ignoreLit (pyStripNL l) = false →
      endCapture (pyStripNL l) = none ∧
      containsSub skipLit (pyStripNL l) = false) ∧
    finalStart isoEpoch none [startLine] = .ok (some (86400 : Int)) ∧
    getTestDetails isoEpoch [startLine] = .ok ("Aborted", some 86400, none) :=
  ⟨by decide, by decide,
   c7_aborted_when_start_recorded isoEpoch [startLine] 86400 (by decide) (by decide)⟩

end ProcessCheckLogs

namespace ProcessCheckLogs

/-- C8: the caller's filename extraction applies the four-group
TEST_FILE_REGEX pattern; on the filename `zlib-1.2.11-5.src.rpm.test.log` it
yields package name `zlib` and version-release `1.2.11-5`. -/
theorem c8_zlib_filename_parses :
    testFileGroups ("zlib-1.2.11-5.src.rpm.test.log").data =
      some (("zlib").data, ("1.2.11").data, ("5").data) ∧
    getPackageDetails ("zlib-1.2.11-5.src.rpm.test.log").data =
      some (("zlib").data, ("1.2.11-5").data) :=
  ⟨by decide, by decide⟩

/-- C9: `output_junit_xml` is a declared argparse destination but
`junit_xml_filename` is not, so whenever `--output-junit-xml` is supplied
(with a non-empty value) the JUnit-XML writing branch fails with an
`AttributeError` on `args.junit_xml_filename` instead of writing the
requested file. -/
theorem c9_junit_branch_attribute_error (v : String) (hv : v ≠ "") :
    declaredDests.contains "output_junit_xml" = true ∧
    argsGetattr "junit_xml_filename" = .attributeError ∧
    junitXmlBranch (some v) = .attributeError := by
  refine ⟨by decide, by decide, ?_⟩
  unfold junitXmlBranch
  simp only [hv, if_false]
  rfl

theorem c9_witness :
    ("out.xml" : String) ≠ "" ∧
    junitXmlBranch (some "out.xml") = .attributeError :=
  ⟨by decide, (c9_junit_branch_attribute_error "out.xml" (by decide)).2.2⟩

end ProcessCheckLogs

namespace RunPtests

/-- The dispatch loop's unexpected-failure counter counts exactly the entries
with `Result == "failed"` and `ExpectedFailure` false. -/
theorem foldl_tally_unexpected (rs : List SrpmResult) :
    ∀ c : Counters, (rs.foldl tally c).unexpected_fail_count =
      c.unexpected_fail_count +
        rs.countP (fun r => r.result == "failed" && !r.expectedFailure) := by
  induction rs with
  | nil => intro c; simp
  | cons r rs ih =>
    intro c
    rw [List.foldl_cons, ih, List.countP_cons]
    have hstep : (tally c r).unexpected_fail_count = c.unexpected_fail_count +
        (if (r.result == "failed" && !r.expectedFailure) = true then 1 else 0) := by
      unfold tally
      split_ifs with h1 h2 h3 h4 h5 h6 <;>
        simp_all
    rw [hstep]
    omega

/-- The dispatch loop's blocked counter counts exactly the entries with
`Result == "blocked"`. -/
theorem foldl_tally_blocked (rs : List SrpmResult) :
    ∀ c : Counters, (rs.foldl tally c).block_count =
      c.block_count + rs.countP (fun r => r.result == "blocked") := by
  induction rs with
  | nil => intro c; simp
  | cons r rs ih =>
    intro c
    rw [List.foldl_cons, ih, List.countP_cons]
    have hstep : (tally c r).block_count = c.block_count +
        (if (r.result == "blocked") = true then 1 else 0) := by
      unfold tally
      split_ifs with h1 h2 h3 h4 h5 h6 <;>
        simp_all
    rw [hstep]
    omega

/-- C10: after the reporting loop runs over all entries, run_ptests.py exits
with status 1 exactly when some entry has `Result = "failed"` with
`ExpectedFailure` false or some entry has `Result = "blocked"`; expected
failures, skips, successes and unknown `Result` values alone never make the
exit status nonzero. -/
theorem c10_exit_one_iff_unexpected_fail_or_block (rs : List SrpmResult) :
    runExitCode rs = 1 ↔
      (∃ r ∈ rs, (r.result = "failed" ∧ r.expectedFailure = false) ∨
        r.result = "blocked") := by
  simp only [runExitCode]
  rw [foldl_tally_unexpected, foldl_tally_blocked]
  simp only [initialCounters, Nat.zero_add]
  by_cases hcond : (0 < rs.countP (fun r => r.result == "failed" && !r.expectedFailure) ∨
      0 < rs.countP (fun r => r.result == "blocked"))
  · simp only [hcond, if_true, true_iff]
    rcases hcond with hc | hc
    · obtain ⟨r, hm, hp⟩ := List.countP_pos_iff.mp hc
      refine ⟨r, hm, Or.inl ?_⟩
      simpa [Bool.and_eq_true, Bool.not_eq_true'] using hp
    · obtain ⟨r, hm, hp⟩ := List.countP_pos_iff.mp hc
      exact ⟨r, hm, Or.inr (by simpa using hp)⟩
  · simp only [hcond, if_false]
    constructor
    · intro h; exact absurd h (by simp)
    · rintro ⟨r, hm, hr | hr⟩
      · exact absurd (Or.inl (List.countP_pos_iff.mpr
          ⟨r, hm, by simp [hr.1, hr.2]⟩)) hcond
      · exact absurd (Or.inr (List.countP_pos_iff.mpr
          ⟨r, hm, by simp [hr]⟩)) hcond

theorem c10_witness :
    runExitCode [⟨"failed", true, "a.log"⟩, ⟨"skipped", false, "b.log"⟩,
      ⟨"succeeded", false, "c.log"⟩, ⟨"mystery", false, "d.log"⟩] = 0 ∧
    runExitCode [⟨"failed", false, "e.log"⟩] = 1 ∧
    runExitCode [⟨"blocked", false, "f.log"⟩] = 1 := by
  refine ⟨by decide, ?_, ?_⟩
  · exact (c10_exit_one_iff_unexpected_fail_or_block _).mpr
      ⟨⟨"failed", false, "e.log"⟩, by simp, Or.inl ⟨rfl, rfl⟩⟩
  · exact (c10_exit_one_iff_unexpected_fail_or_block _).mpr
      ⟨⟨"blocked", false, "f.log"⟩, by simp, Or.inr rfl⟩

end RunPtests
